import Mathlib

/-!
Verification of the booking admission pipeline of the concert-app repository
(admin-service intake API + RabbitMQ consumer, concert-service gateway route).

The embedding below translates, from the Python source:
  * the data model of `src/admin-service/models.py` (`TicketType`, `Booking`,
    the bookings table with `id` as primary key);
  * the consumer callback of `run_consumer` in `src/admin-service/app.py`
    (lines 1120-1179), including its acknowledgement behaviour on every
    control-flow path;
  * the intake endpoint `create_booking` of `src/admin-service/app.py`
    (lines 718-776) with its fire-and-forget publish thread;
  * the two queue publishers (admin intake `send_to_queue`, and the gateway
    route `create_booking` in `src/concert-service/app.py` lines 102-141).

Python truthiness of JSON fields (`not all([...])`) is modelled explicitly:
a missing key (`None`), an empty string and the integer 0 are falsy.

The `bookings` schema (models.py lines 73-74) declares `id` and `user_id`
as Integer columns, while the consumer hands the insert the message's
string values (`booking_id` is the intake's `str(uuid.uuid4())`; `user_id`
is the JWT subject, which the auth service issues as `str(user.id)`).
The configured backend (PostgreSQL, config.py) coerces a bound string
literal to an integer column only when the text is an integer numeral and
raises a datatype error otherwise; `insertBooking` models this coercion
with `pgInt?`, so a UUID booking id makes the insert raise (caught by the
blanket `except`, rolled back, acknowledged).
-/

namespace ConcertApp

/-- `ticket_types` row (models.py lines 52-63): `id` primary key,
`concert_id` foreign key, `total_quantity` capacity.  The `type` and `price`
columns play no role in the admission pipeline and are omitted. -/
structure TicketType where
  id : Int
  concert_id : Int
  total_quantity : Int
deriving Repr, DecidableEq

/-- `bookings` row (models.py lines 70-79): `id` is the Integer primary
key and `user_id` an Integer column (models.py lines 73-74); a stored row
therefore carries integers in those fields, whatever Python values the
consumer handed to the insert. -/
structure Booking where
  id : Int
  user_id : Int
  concert_id : Int
  ticket_type_id : Int
  quantity : Int
  status : String
deriving Repr, DecidableEq

/-- The Ticket Inventory Store: the two tables the admission pipeline touches. -/
structure Store where
  ticket_types : List TicketType
  bookings : List Booking
deriving Repr, DecidableEq

/-- `TicketType.query.get(ticket_type_id)`: primary-key lookup. -/
def getTicketType (s : Store) (ttid : Int) : Option TicketType :=
  s.ticket_types.find? (fun t => t.id == ttid)

/-- The status filter of the consumer's availability check:
`b.status in ['confirmed', 'pending']`. -/
def isCounted (b : Booking) : Bool :=
  b.status == "confirmed" || b.status == "pending"

/-- `sum(b.quantity for b in ticket_type.bookings if b.status in
['confirmed', 'pending'])` (app.py lines 1147-1150); `ticket_type.bookings`
is the relationship of bookings whose `ticket_type_id` equals the row's id. -/
def bookedQuantity (s : Store) (tt : TicketType) : Int :=
  ((s.bookings.filter (fun b => b.ticket_type_id == tt.id && isCounted b)).map
    Booking.quantity).sum

/-- A decoded queue message as seen through `message.get(...)`:
each field is `none` when the key is absent (Python `None`). -/
structure QueueMessage where
  booking_id : Option String
  user_id : Option String
  concert_id : Option Int
  ticket_type_id : Option Int
  quantity : Option Int
deriving Repr, DecidableEq

/-- Python truthiness of an optional string: `None` and `""` are falsy. -/
def truthyS : Option String → Bool
  | none => false
  | some s => !(s == "")

/-- Python truthiness of an optional integer: `None` and `0` are falsy. -/
def truthyI : Option Int → Bool
  | none => false
  | some n => !(n == 0)

/-- The consumer's validation `all([booking_id, user_id, concert_id,
ticket_type_id, quantity])` (app.py line 1134): truthiness of every field. -/
def allTruthy (m : QueueMessage) : Bool :=
  truthyS m.booking_id && truthyS m.user_id && truthyI m.concert_id &&
    truthyI m.ticket_type_id && truthyI m.quantity

/-- Decimal digits to a number: `none` as soon as a non-digit appears. -/
def decDigits? : List Char → Nat → Option Nat
  | [], acc => some acc
  | c :: cs, acc =>
    if c.isDigit then decDigits? cs (acc * 10 + (c.toNat - '0'.toNat))
    else none

/-- PostgreSQL's coercion of a bound text literal into an `Integer` column
(`int4in`): an optional sign followed by one or more decimal digits parses
to that integer; any other text — every `str(uuid.uuid4())` — raises a
datatype error, modelled as `none`.  (Whitespace trimming and the 32-bit
range check are not modelled; neither matters for the ids this system
produces.) -/
def pgInt? (s : String) : Option Int :=
  match s.data with
  | [] => none
  | '-' :: cs =>
    match cs with
    | [] => none
    | _ => (decDigits? cs 0).map (fun n => -(n : Int))
  | '+' :: cs =>
    match cs with
    | [] => none
    | _ => (decDigits? cs 0).map (fun n => (n : Int))
  | cs => (decDigits? cs 0).map (fun n => (n : Int))

/-- `db.session.add(booking); db.session.commit()` of the consumer
(app.py lines 1161-1171) against the `bookings` schema.  The consumer
passes `id=booking_id` and `user_id=user_id`, both Python strings, into
the Integer columns of models.py lines 73-74; the database coerces each
bound string to an integer only when it is an integer numeral (modelled by
`pgInt?`) and otherwise raises a datatype error — the fate of every
`str(uuid.uuid4())` id the intake generates.  A numeral id that collides
with an existing primary key raises a duplicate-key error.  `none` models
a raised (and caught, rolled-back, acknowledged) error of either kind; the
table is unchanged in that case. -/
def insertBooking (s : Store) (bid uid : String) (cid ttid qty : Int) :
    Option Store :=
  match pgInt? bid, pgInt? uid with
  | some idInt, some uidInt =>
    if s.bookings.any (fun b0 => b0.id == idInt) then none
    else some { s with bookings := s.bookings ++
      [{ id := idInt, user_id := uidInt, concert_id := cid,
         ticket_type_id := ttid, quantity := qty, status := "confirmed" }] }
  | _, _ => none

/-- How the consumer callback disposed of one message. -/
inductive Outcome where
  | malformed
  | badTicketRef
  | notEnough
  | committed
  | internalError
deriving Repr, DecidableEq

/-- Observable result of one callback invocation: the store afterwards, the
disposition, the number of `ch.basic_ack(delivery_tag=...)` calls executed on
that path, and the number of requeue operations (`basic_nack`/`basic_reject`
with requeue) executed on that path. -/
structure StepResult where
  store : Store
  outcome : Outcome
  acks : Nat
  requeues : Nat
deriving Repr, DecidableEq

/-- The body of the consumer callback after the field validation
(app.py lines 1139-1171), with the message fields bound as locals.
`storeFail` models a transient store (database) connection error raised at
the first store access (`TicketType.query.get`); any such exception is
caught by the blanket `except`, the session is rolled back, and the
`finally` block still acknowledges the message (1 ack, 0 requeues).
The two discard paths here (`badTicketRef`, `notEnough`) execute an inline
`basic_ack` before their `return`, and the `finally` block acknowledges
again, so they count 2 acks; the commit path and the exception paths
acknowledge only in `finally`.  No path requeues: the source contains no
`basic_nack` and no requeue flag. -/
def handleMessage (s : Store) (bid uid : String) (cid ttid qty : Int)
    (storeFail : Bool) : StepResult :=
  if storeFail then
    { store := s, outcome := .internalError, acks := 1, requeues := 0 }
  else
    match getTicketType s ttid with
    | none => { store := s, outcome := .badTicketRef, acks := 2, requeues := 0 }
    | some tt =>
      if !(tt.concert_id == cid) then
        { store := s, outcome := .badTicketRef, acks := 2, requeues := 0 }
      else if qty > tt.total_quantity - bookedQuantity s tt then
        { store := s, outcome := .notEnough, acks := 2, requeues := 0 }
      else
        match insertBooking s bid uid cid ttid qty with
        | none =>
          { store := s, outcome := .internalError, acks := 1, requeues := 0 }
        | some s2 =>
          { store := s2, outcome := .committed, acks := 1, requeues := 0 }

/-- The consumer callback of `run_consumer` (app.py lines 1120-1179), one
dequeued message: bind the five fields via `message.get`, discard as
malformed when `not all([...])` (inline ack + `finally` ack = 2 acks),
otherwise continue with `handleMessage`. -/
def callback (s : Store) (m : QueueMessage) (storeFail : Bool) : StepResult :=
  if !(allTruthy m) then
    { store := s, outcome := .malformed, acks := 2, requeues := 0 }
  else
    handleMessage s (m.booking_id.getD "") (m.user_id.getD "")
      (m.concert_id.getD 0) (m.ticket_type_id.getD 0) (m.quantity.getD 0)
      storeFail

/-- The consumer drains a sequence of messages one at a time
(`prefetch_count=1`): the store threads through the callback. -/
def runConsumer (s : Store) (ms : List QueueMessage) : Store :=
  ms.foldl (fun st m => (callback st m false).store) s

/-- The core invariant: for every ticket-type row, the confirmed+pending
booked quantity does not exceed its capacity. -/
def bookingInvariant (s : Store) : Prop :=
  ∀ tt ∈ s.ticket_types, bookedQuantity s tt ≤ tt.total_quantity

/-- `id` is the primary key of `ticket_types`: the ids in the table are
pairwise distinct. -/
def uniqueTicketTypeIds (s : Store) : Prop :=
  (s.ticket_types.map TicketType.id).Nodup

/-! ### The intake API (`POST /bookings`, admin-service app.py lines 672-776) -/

/-- The request body as read through `request.json` / `data.get(...)`:
a missing key is `none`.  The body's `quantity` is modelled as an integer
when present; the endpoint's `isinstance(quantity, int)` guard concerns
JSON payloads of other runtime types, which this embedding does not carry. -/
structure BookingRequest where
  concert_id : Option Int
  ticket_type_id : Option Int
  quantity : Option Int
deriving Repr, DecidableEq

/-- The HTTP response of the intake endpoint. -/
inductive IntakeResponse where
  | badRequest (error : String)
  | notFound (error : String)
  | accepted (message : String) (booking_id : String) (status : String)
deriving Repr, DecidableEq

/-- What one call of the intake endpoint produces: the response and its HTTP
code, the message handed to the detached publish thread (`none` when no
thread is spawned), and the store as the endpoint leaves it. -/
structure IntakeResult where
  response : IntakeResponse
  httpCode : Nat
  published : Option QueueMessage
  store : Store
deriving Repr, DecidableEq

/-- The intake endpoint `create_booking` (app.py lines 718-776).
`userId` is `get_jwt()['sub']`; `freshId` is the `str(uuid.uuid4())` the
endpoint generates.  Validation order follows the source: truthiness of the
three fields (400), positivity of `quantity` (400), ticket-type lookup and
concert match (404); then the queue message is built and handed to a daemon
thread, and 201 with status `processing` is returned at once. -/
def create_booking (s : Store) (userId freshId : String) (r : BookingRequest) :
    IntakeResult :=
  if !(truthyI r.concert_id && truthyI r.ticket_type_id && truthyI r.quantity) then
    { response := .badRequest "concert_id, ticket_type_id and quantity are required",
      httpCode := 400, published := none, store := s }
  else if r.quantity.getD 0 ≤ 0 then
    { response := .badRequest "Quantity must be a positive integer",
      httpCode := 400, published := none, store := s }
  else
    match getTicketType s (r.ticket_type_id.getD 0) with
    | none =>
      { response := .notFound "Ticket type not found for this concert",
        httpCode := 404, published := none, store := s }
    | some tt =>
      if !(tt.concert_id == r.concert_id.getD 0) then
        { response := .notFound "Ticket type not found for this concert",
          httpCode := 404, published := none, store := s }
      else
        { response := .accepted "Booking request accepted for processing"
            freshId "processing",
          httpCode := 201,
          published := some
            { booking_id := some freshId, user_id := some userId,
              concert_id := some (r.concert_id.getD 0),
              ticket_type_id := some (r.ticket_type_id.getD 0),
              quantity := some (r.quantity.getD 0) },
          store := s }

/-- Outcome of the detached `send_to_queue` thread (app.py lines 736-767):
its whole body is wrapped in `try/except Exception`, so an unreachable
broker produces a logged failure, never a propagated exception. -/
inductive PublishOutcome where
  | sent
  | failedLogged
deriving Repr, DecidableEq

/-- The endpoint together with the detached publish thread: `queueUp` says
whether the broker is reachable when the thread runs.  The HTTP result is
computed before and independently of the thread's fate. -/
def create_booking_with_queue (s : Store) (userId freshId : String)
    (r : BookingRequest) (queueUp : Bool) : IntakeResult × Option PublishOutcome :=
  let res := create_booking s userId freshId r
  (res, res.published.map (fun _ => if queueUp then .sent else .failedLogged))

/-! ### The two queue publishers (claim C4's shape of the wire message) -/

/-- A JSON value, as far as the two publishers need. -/
inductive Json where
  | str (s : String)
  | int (n : Int)
  | obj (fields : List (String × Json))

/-- The body the admin intake's `send_to_queue` serializes (app.py lines
750-756): the five-field flat object. -/
def adminQueueBody (bid uid : String) (cid ttid qty : Int) : Json :=
  .obj [("booking_id", .str bid), ("user_id", .str uid),
        ("concert_id", .int cid), ("ticket_type_id", .int ttid),
        ("quantity", .int qty)]

/-- The body the gateway route `create_booking` serializes
(concert-service app.py lines 112-127): `{token, payload}` with the payload
holding `concert_id`, `ticket_type_id`, `quantity`. -/
def gatewayQueueBody (token : String) (cid ttid qty : Int) : Json :=
  .obj [("token", .str token),
        ("payload", .obj [("concert_id", .int cid),
                          ("ticket_type_id", .int ttid),
                          ("quantity", .int qty)])]

/-- One `basic_publish` call: routing key, serialized body, delivery mode. -/
structure PublishCall where
  routing_key : String
  body : Json
  delivery_mode : Nat

/-- The admin intake publish (app.py lines 757-762): default exchange,
routing key `booking_queue`, `delivery_mode=2`. -/
def adminPublish (bid uid : String) (cid ttid qty : Int) : PublishCall :=
  { routing_key := "booking_queue",
    body := adminQueueBody bid uid cid ttid qty,
    delivery_mode := 2 }

/-- The gateway publish (concert-service app.py lines 129-135): default
exchange, routing key `booking_queue`, `delivery_mode=2`. -/
def gatewayPublish (token : String) (cid ttid qty : Int) : PublishCall :=
  { routing_key := "booking_queue",
    body := gatewayQueueBody token cid ttid qty,
    delivery_mode := 2 }

/-- Both publishers declare the queue first: `channel.queue_declare(
queue='booking_queue', durable=True)` — admin app.py line 748. -/
def adminQueueDeclare : String × Bool := ("booking_queue", true)

/-- `channel.queue_declare(queue='booking_queue', durable=True)` —
concert-service app.py line 121. -/
def gatewayQueueDeclare : String × Bool := ("booking_queue", true)

/-- Modelled from the spec: the claimed wire shape `{booking_id:
string(UUID), user_id: string, concert_id: int, ticket_type_id: int,
quantity: int}` (spec section 6), as a decidable predicate on `Json`. -/
def hasSpecQueueShape : Json → Bool
  | .obj [("booking_id", .str _), ("user_id", .str _), ("concert_id", .int _),
          ("ticket_type_id", .int _), ("quantity", .int _)] => true
  | _ => false

/-! ## Helper lemmas -/

theorem truthyS_eq_some {o : Option String} (h : truthyS o = true) :
    o = some (o.getD "") := by
  cases o with
  | none => simp [truthyS] at h
  | some s => rfl

theorem truthyI_eq_some {o : Option Int} (h : truthyI o = true) :
    o = some (o.getD 0) := by
  cases o with
  | none => simp [truthyI] at h
  | some n => rfl

theorem getTicketType_mem {s : Store} {ttid : Int} {tt : TicketType}
    (h : getTicketType s ttid = some tt) : tt ∈ s.ticket_types :=
  List.mem_of_find?_eq_some h

theorem getTicketType_id {s : Store} {ttid : Int} {tt : TicketType}
    (h : getTicketType s ttid = some tt) : tt.id = ttid := by
  have hp := List.find?_some h
  exact eq_of_beq hp

/-- Appending one booking row adds its quantity to a ticket type's booked
sum exactly when the row references that ticket type and has a counted
status. -/
theorem bookedQuantity_append (s : Store) (b : Booking) (tt : TicketType) :
    bookedQuantity { s with bookings := s.bookings ++ [b] } tt =
      bookedQuantity s tt +
        (if (b.ticket_type_id == tt.id && isCounted b) = true then b.quantity
         else 0) := by
  unfold bookedQuantity
  simp only [List.filter_append, List.map_append, List.sum_append]
  by_cases h : (b.ticket_type_id == tt.id && isCounted b) = true <;> simp [h]

/-- Case analysis of one callback invocation, as far as the store is
concerned: either the store is untouched and nothing was committed, or the
message was well formed, its ticket type resolved with a matching concert,
the requested quantity fit the availability, both string ids coerced to
integers (`pgInt?`), the coerced primary key was fresh, and exactly
the one confirmed row built from the coerced message was appended. -/
theorem callback_store_spec (s : Store) (m : QueueMessage) (f : Bool) :
    ((callback s m f).store = s ∧ (callback s m f).outcome ≠ .committed) ∨
    ∃ bid uid idInt uidInt cid ttid qty tt,
      m.booking_id = some bid ∧ m.user_id = some uid ∧
      m.concert_id = some cid ∧ m.ticket_type_id = some ttid ∧
      m.quantity = some qty ∧
      pgInt? bid = some idInt ∧ pgInt? uid = some uidInt ∧
      getTicketType s ttid = some tt ∧ tt.concert_id = cid ∧
      qty ≤ tt.total_quantity - bookedQuantity s tt ∧
      (s.bookings.any (fun b0 => b0.id == idInt)) = false ∧
      (callback s m f).outcome = .committed ∧
      (callback s m f).store =
        { s with bookings := s.bookings ++
            [{ id := idInt, user_id := uidInt, concert_id := cid,
               ticket_type_id := ttid, quantity := qty,
               status := "confirmed" }] } := by
  by_cases hT : allTruthy m
  · have hT' := hT
    unfold allTruthy at hT'
    simp only [Bool.and_eq_true] at hT'
    obtain ⟨⟨⟨⟨h1, h2⟩, h3⟩, h4⟩, h5⟩ := hT'
    unfold callback
    rw [if_neg (by simp [hT])]
    unfold handleMessage
    by_cases hf : f
    · rw [if_pos hf]; left; exact ⟨rfl, by simp⟩
    · rw [if_neg hf]
      cases hget : getTicketType s (m.ticket_type_id.getD 0) with
      | none => dsimp only; left; exact ⟨rfl, by simp⟩
      | some tt =>
        dsimp only
        by_cases hc : (tt.concert_id == m.concert_id.getD 0) = true
        · rw [if_neg (by simp [hc])]
          by_cases hq :
              m.quantity.getD 0 > tt.total_quantity - bookedQuantity s tt
          · rw [if_pos hq]; left; exact ⟨rfl, by simp⟩
          · rw [if_neg hq]
            cases hins : insertBooking s (m.booking_id.getD "")
                (m.user_id.getD "") (m.concert_id.getD 0)
                (m.ticket_type_id.getD 0) (m.quantity.getD 0) with
            | none => dsimp only; left; exact ⟨rfl, by simp⟩
            | some s2 =>
              dsimp only
              unfold insertBooking at hins
              cases hbi : pgInt? (m.booking_id.getD "") with
              | none => rw [hbi] at hins; exact absurd hins (by simp)
              | some idInt =>
                cases hui : pgInt? (m.user_id.getD "") with
                | none => rw [hbi, hui] at hins; exact absurd hins (by simp)
                | some uidInt =>
                  rw [hbi, hui] at hins
                  dsimp only at hins
                  by_cases hany :
                      (s.bookings.any (fun b0 => b0.id == idInt)) = true
                  · rw [if_pos hany] at hins; exact absurd hins (by simp)
                  · rw [if_neg hany] at hins
                    simp only [Bool.not_eq_true] at hany
                    have hs2 :
                        s2 = { s with bookings := s.bookings ++
                          [{ id := idInt, user_id := uidInt,
                             concert_id := m.concert_id.getD 0,
                             ticket_type_id := m.ticket_type_id.getD 0,
                             quantity := m.quantity.getD 0,
                             status := "confirmed" }] } := by
                      injection hins with h; exact h.symm
                    right
                    exact ⟨m.booking_id.getD "", m.user_id.getD "",
                      idInt, uidInt,
                      m.concert_id.getD 0, m.ticket_type_id.getD 0,
                      m.quantity.getD 0, tt,
                      truthyS_eq_some h1, truthyS_eq_some h2,
                      truthyI_eq_some h3, truthyI_eq_some h4,
                      truthyI_eq_some h5, hbi, hui, hget, eq_of_beq hc,
                      not_lt.mp hq, hany, by simp, by simp [hs2]⟩
        · rw [if_pos (by simp [hc])]; left; exact ⟨rfl, by simp⟩
  · left
    unfold callback
    rw [if_pos (by simp [hT])]
    exact ⟨rfl, by simp⟩

/-- The callback never touches the `ticket_types` table. -/
theorem callback_ticket_types (s : Store) (m : QueueMessage) (f : Bool) :
    (callback s m f).store.ticket_types = s.ticket_types := by
  rcases callback_store_spec s m f with ⟨h, _⟩ |
    ⟨_, _, _, _, _, _, _, _, _, _, _, _, _, _, _, _, _, _, _, _, h⟩ <;>
    rw [h]

/-- One callback step preserves the booking invariant (given primary-key
uniqueness of the `ticket_types` table). -/
theorem callback_preserves_invariant (s : Store) (m : QueueMessage) (f : Bool)
    (hu : uniqueTicketTypeIds s) (hinv : bookingInvariant s) :
    bookingInvariant (callback s m f).store := by
  rcases callback_store_spec s m f with ⟨h, _⟩ |
    ⟨bid, uid, idInt, uidInt, cid, ttid, qty, tt, _, _, _, _, _, _, _,
      hget, _, hle, _, _, hstore⟩
  · rw [h]; exact hinv
  · rw [hstore]
    intro tt' htt'
    have htt'mem : tt' ∈ s.ticket_types := htt'
    rw [bookedQuantity_append]
    by_cases hid :
        ((Booking.mk idInt uidInt cid ttid qty "confirmed").ticket_type_id ==
          tt'.id &&
          isCounted (Booking.mk idInt uidInt cid ttid qty "confirmed"))
          = true
    · rw [if_pos hid]
      have hid' : ttid = tt'.id := by
        have := (Bool.and_eq_true _ _).mp hid
        exact eq_of_beq this.1
      have heq : tt' = tt := by
        apply List.inj_on_of_nodup_map hu htt'mem (getTicketType_mem hget)
        rw [← hid', getTicketType_id hget]
      subst heq
      have : bookedQuantity s tt' + qty ≤ tt'.total_quantity := by linarith
      simpa using this
    · rw [if_neg hid]
      simpa using hinv tt' htt'mem

/-- Unrolling one message of the consumer loop. -/
theorem runConsumer_cons (s : Store) (m : QueueMessage) (ms : List QueueMessage) :
    runConsumer s (m :: ms) = runConsumer (callback s m false).store ms := rfl

/-- The consumer loop preserves the booking invariant over any message
sequence. -/
theorem runConsumer_preserves_invariant (s : Store) (ms : List QueueMessage)
    (hu : uniqueTicketTypeIds s) (hinv : bookingInvariant s) :
    bookingInvariant (runConsumer s ms) := by
  induction ms generalizing s with
  | nil => exact hinv
  | cons m ms ih =>
    rw [runConsumer_cons]
    refine ih _ ?_ (callback_preserves_invariant s m false hu hinv)
    unfold uniqueTicketTypeIds
    rw [callback_ticket_types]
    exact hu

/-- Full enumeration of one callback invocation's disposition, ack count and
requeue count. -/
theorem callback_cases (s : Store) (m : QueueMessage) (f : Bool) :
    ((callback s m f).outcome = .malformed ∧ (callback s m f).acks = 2 ∧
      (callback s m f).requeues = 0) ∨
    ((callback s m f).outcome = .badTicketRef ∧ (callback s m f).acks = 2 ∧
      (callback s m f).requeues = 0) ∨
    ((callback s m f).outcome = .notEnough ∧ (callback s m f).acks = 2 ∧
      (callback s m f).requeues = 0) ∨
    ((callback s m f).outcome = .committed ∧ (callback s m f).acks = 1 ∧
      (callback s m f).requeues = 0) ∨
    ((callback s m f).outcome = .internalError ∧ (callback s m f).acks = 1 ∧
      (callback s m f).requeues = 0) := by
  unfold callback handleMessage
  repeat' split
  all_goals simp

/-- Closed form of the callback on a well-formed message whose ticket type
resolves, whose concert matches, whose two string ids coerce to integers,
and whose coerced booking id is fresh: the only remaining decision is the
capacity check. -/
theorem callback_clean (s : Store) (m : QueueMessage) (bid uid : String)
    (idInt uidInt cid ttid qty : Int) (tt : TicketType)
    (hbid : m.booking_id = some bid) (huid : m.user_id = some uid)
    (hcid : m.concert_id = some cid) (httid : m.ticket_type_id = some ttid)
    (hqty : m.quantity = some qty) (hT : allTruthy m = true)
    (hbi : pgInt? bid = some idInt) (hui : pgInt? uid = some uidInt)
    (hget : getTicketType s ttid = some tt) (hconc : tt.concert_id = cid)
    (hany : (s.bookings.any fun b0 => b0.id == idInt) = false) :
    callback s m false =
      if qty > tt.total_quantity - bookedQuantity s tt then
        { store := s, outcome := .notEnough, acks := 2, requeues := 0 }
      else
        { store := { s with bookings := s.bookings ++
            [{ id := idInt, user_id := uidInt, concert_id := cid,
               ticket_type_id := ttid, quantity := qty,
               status := "confirmed" }] },
          outcome := .committed, acks := 1, requeues := 0 } := by
  unfold callback
  rw [if_neg (by simp [hT])]
  unfold handleMessage
  rw [if_neg (by simp)]
  rw [hbid, huid, hcid, httid, hqty]
  simp only [Option.getD_some]
  rw [hget]
  dsimp only
  rw [if_neg (by simp [hconc])]
  by_cases hq : qty > tt.total_quantity - bookedQuantity s tt
  · rw [if_pos hq, if_pos hq]
  · rw [if_neg hq, if_neg hq]
    unfold insertBooking
    rw [hbi, hui]
    dsimp only
    rw [if_neg (by simp [hany])]

/-- Closed form of the callback on a well-formed message whose ticket type
resolves, whose concert matches, and whose quantity fits availability, but
whose booking id is not an integer numeral (every UUID the intake
generates): the insert raises a datatype error, caught by the blanket
`except`, and nothing is stored. -/
theorem callback_badtype (s : Store) (m : QueueMessage) (bid uid : String)
    (cid ttid qty : Int) (tt : TicketType)
    (hbid : m.booking_id = some bid) (huid : m.user_id = some uid)
    (hcid : m.concert_id = some cid) (httid : m.ticket_type_id = some ttid)
    (hqty : m.quantity = some qty) (hT : allTruthy m = true)
    (hbi : pgInt? bid = none)
    (hget : getTicketType s ttid = some tt) (hconc : tt.concert_id = cid)
    (hfit : qty ≤ tt.total_quantity - bookedQuantity s tt) :
    callback s m false =
      { store := s, outcome := .internalError, acks := 1, requeues := 0 } := by
  unfold callback
  rw [if_neg (by simp [hT])]
  unfold handleMessage
  rw [if_neg (by simp)]
  rw [hbid, huid, hcid, httid, hqty]
  simp only [Option.getD_some]
  rw [hget]
  dsimp only
  rw [if_neg (by simp [hconc])]
  rw [if_neg (not_lt.mpr hfit)]
  unfold insertBooking
  rw [hbi]

/-- Closed form of the intake endpoint on a valid request: 201, status
`processing`, the five-field message handed to the publish thread, store
untouched. -/
theorem create_booking_valid (s : Store) (userId freshId : String)
    (r : BookingRequest) (cid ttid qty : Int) (tt : TicketType)
    (hcid : r.concert_id = some cid) (httid : r.ticket_type_id = some ttid)
    (hqty : r.quantity = some qty) (hcid0 : cid ≠ 0) (httid0 : ttid ≠ 0)
    (hpos : 0 < qty)
    (hget : getTicketType s ttid = some tt) (hconc : tt.concert_id = cid) :
    create_booking s userId freshId r =
      { response := .accepted "Booking request accepted for processing"
          freshId "processing",
        httpCode := 201,
        published := some
          { booking_id := some freshId, user_id := some userId,
            concert_id := some cid, ticket_type_id := some ttid,
            quantity := some qty },
        store := s } := by
  unfold create_booking
  rw [hcid, httid, hqty]
  simp only [Option.getD_some]
  rw [if_neg (by simp [truthyI, hcid0, httid0]; omega)]
  rw [if_neg (by omega)]
  rw [hget]
  dsimp only
  rw [if_neg (by simp [hconc])]

/-! ## Claims -/

/-- C1: starting from a store with unique ticket-type ids, non-negative
capacities and an empty bookings table, after any prefix of a sequence of
booking messages with positive quantities is processed by the consumer,
every ticket type's confirmed+pending booked sum is at most its
`total_quantity`: the consumer never admits beyond capacity. -/
theorem C1_no_oversell (s : Store) (ms : List QueueMessage)
    (hu : uniqueTicketTypeIds s)
    (hcap : ∀ tt ∈ s.ticket_types, 0 ≤ tt.total_quantity)
    (hpos : ∀ m ∈ ms, 0 < m.quantity.getD 0)
    (hempty : s.bookings = []) :
    ∀ pre suf, ms = pre ++ suf → bookingInvariant (runConsumer s pre) := by
  intro pre suf hsplit
  apply runConsumer_preserves_invariant s pre hu
  intro tt htt
  have hz : bookedQuantity s tt = 0 := by
    unfold bookedQuantity
    rw [hempty]
    rfl
  rw [hz]
  exact hcap tt htt

/-- Witness for C1: capacity 10, two well-formed requests of quantity 6
with numeral ids (spec section 8, Scenario B: the first commits, the second
is discarded); the invariant holds after both are processed. -/
theorem C1_no_oversell_witness :
    uniqueTicketTypeIds ⟨[⟨1, 1, 10⟩], []⟩ ∧
    (∀ tt ∈ (⟨[⟨1, 1, 10⟩], []⟩ : Store).ticket_types,
      0 ≤ tt.total_quantity) ∧
    (∀ m ∈ [(⟨some "101", some "7", some 1, some 1, some 6⟩ : QueueMessage),
            ⟨some "102", some "8", some 1, some 1, some 6⟩],
      0 < m.quantity.getD 0) ∧
    bookingInvariant (runConsumer ⟨[⟨1, 1, 10⟩], []⟩
      [⟨some "101", some "7", some 1, some 1, some 6⟩,
       ⟨some "102", some "8", some 1, some 1, some 6⟩]) :=
  ⟨by unfold uniqueTicketTypeIds; decide, by decide, by decide,
   C1_no_oversell ⟨[⟨1, 1, 10⟩], []⟩
     [⟨some "101", some "7", some 1, some 1, some 6⟩,
      ⟨some "102", some "8", some 1, some 1, some 6⟩]
     (by unfold uniqueTicketTypeIds; decide) (by decide) (by decide) rfl
     [⟨some "101", some "7", some 1, some 1, some 6⟩,
      ⟨some "102", some "8", some 1, some 1, some 6⟩]
     [] (by simp)⟩

/-- C4 counterexample: the gateway's create-booking route publishes
`{token, payload: {concert_id, ticket_type_id, quantity}}`, which does not
have the five-field shape `{booking_id, user_id, concert_id,
ticket_type_id, quantity}` the claim asserts for every publisher. -/
theorem C4_counterexample :
    hasSpecQueueShape (gatewayPublish "tok" 1 2 3).body = false := rfl

/-- C4 (amended): messages published by the admin intake API have exactly
the five-field spec shape, while the gateway's create-booking route
publishes the two-field `{token, payload}` shape instead; both publishers
use persistent delivery mode (2) on the durable named queue
`booking_queue`. -/
theorem C4_publisher_shapes (bid uid token : String) (cid ttid qty : Int) :
    hasSpecQueueShape (adminPublish bid uid cid ttid qty).body = true ∧
    (adminPublish bid uid cid ttid qty).routing_key = "booking_queue" ∧
    (adminPublish bid uid cid ttid qty).delivery_mode = 2 ∧
    hasSpecQueueShape (gatewayPublish token cid ttid qty).body = false ∧
    (gatewayPublish token cid ttid qty).routing_key = "booking_queue" ∧
    (gatewayPublish token cid ttid qty).delivery_mode = 2 ∧
    adminQueueDeclare = ("booking_queue", true) ∧
    gatewayQueueDeclare = ("booking_queue", true) :=
  ⟨rfl, rfl, rfl, rfl, rfl, rfl, rfl, rfl⟩

/-- C5 counterexample: a transient store failure (`storeFail = true`) while
processing a well-formed message is NOT requeued-and-retried: the blanket
`except` catches it and the `finally` block acknowledges the message
(1 ack, 0 requeues), so the message is dropped. -/
theorem C5_counterexample :
    (callback ⟨[⟨1, 1, 10⟩], []⟩
        ⟨some "b1", some "u1", some 1, some 1, some 2⟩ true).outcome =
      .internalError ∧
    (callback ⟨[⟨1, 1, 10⟩], []⟩
        ⟨some "b1", some "u1", some 1, some 1, some 2⟩ true).acks = 1 ∧
    (callback ⟨[⟨1, 1, 10⟩], []⟩
        ⟨some "b1", some "u1", some 1, some 1, some 2⟩ true).requeues = 0 := by
  decide

/-- C5 (amended): every per-message disposition of the consumer — logical
rejections and transient store failures alike — is terminal: the callback
performs no requeue on any path and always acknowledges the message at
least once. -/
theorem C5_all_outcomes_terminal (s : Store) (m : QueueMessage) (f : Bool) :
    (callback s m f).requeues = 0 ∧ 1 ≤ (callback s m f).acks := by
  rcases callback_cases s m f with
    ⟨_, h2, h3⟩ | ⟨_, h2, h3⟩ | ⟨_, h2, h3⟩ | ⟨_, h2, h3⟩ | ⟨_, h2, h3⟩ <;>
    rw [h2, h3] <;> simp

/-- C7: the intake booking endpoint never writes to the Inventory Store —
whatever the outcome, the store (both the bookings table and the
ticket-type rows) it returns with is the store it was given. -/
theorem C7_intake_never_writes (s : Store) (userId freshId : String)
    (r : BookingRequest) :
    (create_booking s userId freshId r).store = s ∧
    (create_booking s userId freshId r).store.bookings = s.bookings ∧
    (create_booking s userId freshId r).store.ticket_types =
      s.ticket_types := by
  unfold create_booking
  repeat' split
  all_goals exact ⟨rfl, rfl, rfl⟩

/-- C8: the consumer only ever materializes rows with status `confirmed` —
whenever a callback commits, exactly one row with status `confirmed` was
appended; on every non-commit disposition the store is unchanged; and the
ticket-type table is never touched. -/
theorem C8_born_confirmed_or_not_at_all (s : Store) (m : QueueMessage)
    (f : Bool) :
    (callback s m f).store.ticket_types = s.ticket_types ∧
    ((callback s m f).outcome ≠ .committed → (callback s m f).store = s) ∧
    ((callback s m f).outcome = .committed →
      ∃ b, (callback s m f).store.bookings = s.bookings ++ [b] ∧
        b.status = "confirmed") := by
  rcases callback_store_spec s m f with ⟨h, hnc⟩ |
    ⟨bid, uid, idInt, uidInt, cid, ttid, qty, tt, _, _, _, _, _, _, _, _, _,
      _, _, hout, hstore⟩
  · exact ⟨by rw [h], fun _ => h, fun hc => absurd hc hnc⟩
  · refine ⟨by rw [hstore], fun hnc => absurd hout hnc, fun _ => ?_⟩
    exact ⟨{ id := idInt, user_id := uidInt, concert_id := cid,
             ticket_type_id := ttid, quantity := qty,
             status := "confirmed" }, by rw [hstore], rfl⟩

/-- Witness for C8: a discard (capacity exceeded: quantity 11 against
capacity 10) leaves the store unchanged, and a commit (numeral ids
"12"/"7", quantity 2) appends one confirmed row. -/
theorem C8_born_confirmed_or_not_at_all_witness :
    (callback ⟨[⟨1, 1, 10⟩], []⟩
      ⟨some "b1", some "u1", some 1, some 1, some 11⟩ false).store =
        ⟨[⟨1, 1, 10⟩], []⟩ ∧
    ∃ b, (callback ⟨[⟨1, 1, 10⟩], []⟩
      ⟨some "12", some "7", some 1, some 1, some 2⟩ false).store.bookings =
        (⟨[⟨1, 1, 10⟩], []⟩ : Store).bookings ++ [b] ∧
      b.status = "confirmed" :=
  ⟨(C8_born_confirmed_or_not_at_all ⟨[⟨1, 1, 10⟩], []⟩
      ⟨some "b1", some "u1", some 1, some 1, some 11⟩ false).2.1
      (by decide),
   (C8_born_confirmed_or_not_at_all ⟨[⟨1, 1, 10⟩], []⟩
      ⟨some "12", some "7", some 1, some 1, some 2⟩ false).2.2
      (by decide)⟩

/-- C10: on every discard path of the per-message handler (malformed, bad
ticket reference, insufficient capacity) `basic_ack` runs twice for the
message's delivery tag — once inline before the early `return` and once in
the `finally` block — while the commit path and the internal-error path
acknowledge exactly once. -/
theorem C10_double_ack_on_discard (s : Store) (m : QueueMessage) (f : Bool) :
    (((callback s m f).outcome = .malformed ∨
      (callback s m f).outcome = .badTicketRef ∨
      (callback s m f).outcome = .notEnough) ↔ (callback s m f).acks = 2) ∧
    (((callback s m f).outcome = .committed ∨
      (callback s m f).outcome = .internalError) ↔
        (callback s m f).acks = 1) := by
  rcases callback_cases s m f with
    ⟨h1, h2, _⟩ | ⟨h1, h2, _⟩ | ⟨h1, h2, _⟩ | ⟨h1, h2, _⟩ | ⟨h1, h2, _⟩ <;>
    rw [h1, h2] <;> simp

/-- C2 (code evaluated at the failing input): a well-formed message with a
valid ticket-type reference requesting exactly the available quantity
(10 of 10), carrying the UUID-string booking id the intake generates and
the numeral user id the auth service issues.  The claim (and spec section
8's boundary property) say this commits a confirmed booking; in the code
the insert of the UUID into the Integer primary-key column
(models.py line 73) raises a datatype error, the blanket `except` catches
it and rolls back, and the message is acknowledged with nothing stored. -/
theorem C2_boundary_failing_input :
    (callback ⟨[⟨1, 1, 10⟩], []⟩
      ⟨some "a3f2c9d8-5b7e-4c21-9f3a-8d2e6b4a1c05", some "7", some 1,
        some 1, some 10⟩ false).outcome = .internalError ∧
    (callback ⟨[⟨1, 1, 10⟩], []⟩
      ⟨some "a3f2c9d8-5b7e-4c21-9f3a-8d2e6b4a1c05", some "7", some 1,
        some 1, some 10⟩ false).store = ⟨[⟨1, 1, 10⟩], []⟩ ∧
    (10 : Int) ≤ (⟨1, 1, 10⟩ : TicketType).total_quantity -
      bookedQuantity ⟨[⟨1, 1, 10⟩], []⟩ ⟨1, 1, 10⟩ := by
  decide

/-- C3 (code evaluated at the failing input): the same well-formed,
capacity-fitting message (UUID booking id, numeral user id) delivered
twice.  The claim says exactly one confirmed row results, the `booking_id`
primary key rejecting the second insert as a duplicate; in the code the
UUID string never enters the Integer primary-key column at all
(models.py line 73), so each delivery ends in a datatype error —
rolled back and acknowledged — and ZERO rows result: the duplicate-key
idempotency mechanism never engages. -/
theorem C3_redelivery_failing_input :
    (callback ⟨[⟨1, 1, 10⟩], []⟩
      ⟨some "a3f2c9d8-5b7e-4c21-9f3a-8d2e6b4a1c05", some "7", some 1,
        some 1, some 2⟩ false).outcome = .internalError ∧
    (runConsumer ⟨[⟨1, 1, 10⟩], []⟩
      [⟨some "a3f2c9d8-5b7e-4c21-9f3a-8d2e6b4a1c05", some "7", some 1,
        some 1, some 2⟩,
       ⟨some "a3f2c9d8-5b7e-4c21-9f3a-8d2e6b4a1c05", some "7", some 1,
        some 1, some 2⟩]).bookings = [] := by
  decide

/-- C9 counterexample: at an instance of the original claim's own premises
— all five fields present and truthy, negative quantity, valid reference,
non-negative availability — with the non-numeral string booking id "b3",
the message is NOT committed as a confirmed booking: the Integer
primary-key insert raises a datatype error and no row is created. -/
theorem C9_counterexample :
    (callback ⟨[⟨1, 1, 10⟩], []⟩
      ⟨some "b3", some "u3", some 1, some 1, some (-3)⟩ false).outcome =
      .internalError ∧
    (callback ⟨[⟨1, 1, 10⟩], []⟩
      ⟨some "b3", some "u3", some 1, some 1, some (-3)⟩
      false).store.bookings = [] := by
  decide

/-- C9 (amended): the consumer's malformed check tests truthiness, not
presence — a message in which any field equals 0 (or the empty string) is
discarded as malformed — and a message with all five fields present and
truthy whose quantity is a negative integer passes both the malformed
check and the capacity check (a negative quantity never exceeds a
non-negative availability) and reaches the insert; it is committed as a
confirmed Booking with that negative quantity exactly in the case that
its booking id and user id are integer numerals, storable in the
Integer-typed columns (for the UUID ids the intake generates the insert
raises instead and nothing is stored). -/
theorem C9_truthiness_lets_negatives_commit :
    (∀ (s : Store) (m : QueueMessage) (f : Bool),
      (m.booking_id = some "" ∨ m.user_id = some "" ∨
       m.concert_id = some 0 ∨ m.ticket_type_id = some 0 ∨
       m.quantity = some 0) →
      (callback s m f).outcome = .malformed) ∧
    (∀ (s : Store) (m : QueueMessage) (bid uid : String)
        (idInt uidInt cid ttid qty : Int) (tt : TicketType),
      m.booking_id = some bid → m.user_id = some uid →
      m.concert_id = some cid → m.ticket_type_id = some ttid →
      m.quantity = some qty → allTruthy m = true → qty < 0 →
      pgInt? bid = some idInt → pgInt? uid = some uidInt →
      getTicketType s ttid = some tt → tt.concert_id = cid →
      0 ≤ tt.total_quantity - bookedQuantity s tt →
      (s.bookings.any fun b0 => b0.id == idInt) = false →
      (callback s m false).outcome = .committed ∧
      (callback s m false).store.bookings = s.bookings ++
        [{ id := idInt, user_id := uidInt, concert_id := cid,
           ticket_type_id := ttid, quantity := qty,
           status := "confirmed" }]) := by
  constructor
  · intro s m f h
    have hT : allTruthy m = false := by
      unfold allTruthy
      rcases h with h | h | h | h | h <;> rw [h] <;> simp [truthyS, truthyI]
    unfold callback
    rw [if_pos (by simp [hT])]
  · intro s m bid uid idInt uidInt cid ttid qty tt hbid huid hcid httid hqty
      hT hneg hbi hui hget hconc havail hany
    have hcb := callback_clean s m bid uid idInt uidInt cid ttid qty tt hbid
      huid hcid httid hqty hT hbi hui hget hconc hany
    rw [if_neg (by linarith)] at hcb
    exact ⟨by rw [hcb], by rw [hcb]⟩

/-- Witness for C9 (amended): quantity 0 is discarded as malformed; a
message with numeral ids "42"/"7" and quantity -3 against 10 available is
committed as a confirmed row with quantity -3. -/
theorem C9_truthiness_lets_negatives_commit_witness :
    (callback ⟨[⟨1, 1, 10⟩], []⟩
      ⟨some "b4", some "u4", some 1, some 1, some 0⟩ false).outcome =
        .malformed ∧
    ((callback ⟨[⟨1, 1, 10⟩], []⟩
        ⟨some "42", some "7", some 1, some 1, some (-3)⟩ false).outcome =
      .committed ∧
      (callback ⟨[⟨1, 1, 10⟩], []⟩
        ⟨some "42", some "7", some 1, some 1, some (-3)⟩
        false).store.bookings =
        (⟨[⟨1, 1, 10⟩], []⟩ : Store).bookings ++
          [{ id := 42, user_id := 7, concert_id := 1,
             ticket_type_id := 1, quantity := -3,
             status := "confirmed" }]) :=
  ⟨C9_truthiness_lets_negatives_commit.1 ⟨[⟨1, 1, 10⟩], []⟩
      ⟨some "b4", some "u4", some 1, some 1, some 0⟩ false
      (Or.inr (Or.inr (Or.inr (Or.inr rfl)))),
   C9_truthiness_lets_negatives_commit.2 ⟨[⟨1, 1, 10⟩], []⟩
      ⟨some "42", some "7", some 1, some 1, some (-3)⟩ "42" "7" 42 7 1 1
      (-3) ⟨1, 1, 10⟩ rfl rfl rfl rfl rfl (by decide) (by decide)
      (by decide) (by decide) (by decide) rfl (by decide) (by decide)⟩

/-- C6: for every valid intake request the endpoint answers 201 with the
generated booking id and status `processing`; the HTTP result is identical
whether the broker is reachable or not (the publish runs on a detached
thread off the response path), and when the broker is down the detached
publish ends as a logged failure, never as a propagated exception. -/
theorem C6_accepted_regardless_of_queue (s : Store) (userId freshId : String)
    (r : BookingRequest) (cid ttid qty : Int) (tt : TicketType)
    (hcid : r.concert_id = some cid) (httid : r.ticket_type_id = some ttid)
    (hqty : r.quantity = some qty) (hcid0 : cid ≠ 0) (httid0 : ttid ≠ 0)
    (hpos : 0 < qty) (hget : getTicketType s ttid = some tt)
    (hconc : tt.concert_id = cid) :
    (∀ queueUp,
      (create_booking_with_queue s userId freshId r queueUp).1.response =
        .accepted "Booking request accepted for processing" freshId
          "processing" ∧
      (create_booking_with_queue s userId freshId r queueUp).1.httpCode =
        201) ∧
    (create_booking_with_queue s userId freshId r true).1 =
      (create_booking_with_queue s userId freshId r false).1 ∧
    (create_booking_with_queue s userId freshId r false).2 =
      some .failedLogged := by
  have h := create_booking_valid s userId freshId r cid ttid qty tt hcid
    httid hqty hcid0 httid0 hpos hget hconc
  unfold create_booking_with_queue
  rw [h]
  exact ⟨fun _ => ⟨rfl, rfl⟩, rfl, rfl⟩

/-- Witness for C6: a valid request (quantity 3 on ticket type 1) yields
201/`processing` whether or not the broker is up, and a down broker yields
a logged publish failure. -/
theorem C6_accepted_regardless_of_queue_witness :
    ((create_booking_with_queue ⟨[⟨1, 1, 10⟩], []⟩ "u" "fid"
        ⟨some 1, some 1, some 3⟩ false).1.response =
      .accepted "Booking request accepted for processing" "fid"
        "processing" ∧
      (create_booking_with_queue ⟨[⟨1, 1, 10⟩], []⟩ "u" "fid"
        ⟨some 1, some 1, some 3⟩ false).1.httpCode = 201) ∧
    (create_booking_with_queue ⟨[⟨1, 1, 10⟩], []⟩ "u" "fid"
        ⟨some 1, some 1, some 3⟩ false).2 = some .failedLogged :=
  ⟨(C6_accepted_regardless_of_queue ⟨[⟨1, 1, 10⟩], []⟩ "u" "fid"
      ⟨some 1, some 1, some 3⟩ 1 1 3 ⟨1, 1, 10⟩ rfl rfl rfl (by decide)
      (by decide) (by decide) (by decide) rfl).1 false,
   (C6_accepted_regardless_of_queue ⟨[⟨1, 1, 10⟩], []⟩ "u" "fid"
      ⟨some 1, some 1, some 3⟩ 1 1 3 ⟨1, 1, 10⟩ rfl rfl rfl (by decide)
      (by decide) (by decide) (by decide) rfl).2.2⟩

/-- Witness for C10: the malformed message (quantity 0) is acknowledged
twice; a committing message (numeral ids "12"/"7") is acknowledged once. -/
theorem C10_double_ack_on_discard_witness :
    (callback ⟨[⟨1, 1, 10⟩], []⟩
      ⟨some "b1", some "u1", some 1, some 1, some 0⟩ false).acks = 2 ∧
    (callback ⟨[⟨1, 1, 10⟩], []⟩
      ⟨some "12", some "7", some 1, some 1, some 2⟩ false).acks = 1 :=
  ⟨((C10_double_ack_on_discard ⟨[⟨1, 1, 10⟩], []⟩
      ⟨some "b1", some "u1", some 1, some 1, some 0⟩ false).1).mp
        (Or.inl (by decide)),
   ((C10_double_ack_on_discard ⟨[⟨1, 1, 10⟩], []⟩
      ⟨some "12", some "7", some 1, some 1, some 2⟩ false).2).mp
        (Or.inl (by decide))⟩

end ConcertApp
